import Mathlib

/-!
Shallow embedding of the Global-Outreach-Website content-management backend
(Express route handlers, middleware, and MySQL-backed models), together with
proofs about the properties its specification states.

Conventions used throughout:
- JavaScript `null`/`undefined` values are modelled as `Option _` with `none`.
- MySQL tables are modelled as Lean lists of row structures; a parameterized
  SQL statement becomes a pure function from the old table contents to the new.
- `bcrypt.compare` and `bcrypt.hash` are abstract parameters (`bcompare`,
  `bhash`): the proofs hold for every hash function.
- JWT verification (`jwt.verify`) is an abstract parameter producing either a
  failure kind (malformed / expired) or the decoded payload.
- Request handlers become functions from their inputs (route params, body,
  authenticated principal, database state) to a response value and, where they
  mutate, the new database state.
-/

/-- Outcome of an Express middleware: either pass the request on
(`next()`) or stop with an HTTP status code and a JSON message. -/
inductive MWResult where
  | next : MWResult
  | stop : Nat → String → MWResult
deriving DecidableEq, Repr

/-! ## Role-gate middleware

Source `src/unnamed/part_001`, `authorize` (middleware/auth.js):
wraps a role list (a single string is first wrapped into a one-element
array); returns 401 if no authenticated user, 403 if the list is nonempty
and does not contain the user's role, otherwise calls `next()`.

Source `src/server/src/server.js` lines 114-121, `checkContentPermission`:
passes if the user's role is `admin` or equals the required role,
otherwise responds 403. -/

/-- Embedding of `authorize(roles)` from `src/unnamed/part_001` lines 205-226.
`userRole` is `none` when `req.user` is absent. -/
def authorize (roles : List String) (userRole : Option String) : MWResult :=
  match userRole with
  | none => MWResult.stop 401 "Not authorized"
  | some r =>
    if roles.length ≠ 0 && !(roles.contains r) then
      MWResult.stop 403 ("User role " ++ r ++ " is not authorized to access this route")
    else
      MWResult.next

/-- Embedding of `checkContentPermission(requiredRole)` from
`src/server/src/server.js` lines 114-121. -/
def checkContentPermission (requiredRole : String) (userRole : String) : MWResult :=
  if userRole == "admin" || userRole == requiredRole then
    MWResult.next
  else
    MWResult.stop 403 "Insufficient permissions"

/-! ## Ownership-gate middleware

Source `src/unnamed/part_001` lines 231-263, `isOwnerOrAdmin`: admins pass;
otherwise the resource is loaded, 404 if absent; the owner id is extracted as
`resource.author_id || resource.user_id || resource.created_by` (JavaScript
truthiness: `null` and `0` are falsy); `ownerId.toString()` throws a TypeError
when `ownerId` is `null`, which the surrounding catch turns into a
500 "Server error" response. -/

/-- Rows loaded by the ownership gate: only the three candidate owner
columns matter. Each is nullable (`ON DELETE SET NULL` foreign keys in the
schema, `src/unnamed/part_001` lines 42-58). -/
structure OwnedResource where
  author_id : Option Int
  user_id : Option Int
  created_by : Option Int
deriving DecidableEq, Repr

/-- JavaScript truthiness of a nullable number: `null`/`undefined` and `0`
are falsy. -/
def jsFalsyInt : Option Int → Bool
  | none => true
  | some n => n == 0

/-- JavaScript `a || b || c` on nullable numbers: the first truthy operand,
or the last operand when all are falsy. -/
def jsOr3 (a b c : Option Int) : Option Int :=
  if jsFalsyInt a then (if jsFalsyInt b then c else b) else a

/-- Embedding of `isOwnerOrAdmin(model, idParam)` from
`src/unnamed/part_001` lines 231-263, applied to one request.
`findById` is the model lookup; `userRole`/`userId` come from the
authenticated principal. A `none` owner id makes `ownerId.toString()` throw,
and the catch block responds 500 "Server error". -/
def isOwnerOrAdmin (findById : String → Option OwnedResource)
    (paramsId : String) (userRole : String) (userId : Int) : MWResult :=
  if userRole == "admin" then
    MWResult.next
  else
    match findById paramsId with
    | none => MWResult.stop 404 "Resource not found"
    | some r =>
      match jsOr3 r.author_id r.user_id r.created_by with
      | none => MWResult.stop 500 "Server error"
      | some ownerId =>
        if toString ownerId ≠ toString userId then
          MWResult.stop 403 "You are not authorized to perform this action"
        else
          MWResult.next

/-! ## Admin user-management endpoints (self-protection)

Source `src/unnamed/part_000`:
- `updateUserRole` (lines 189-205): guard `if (id === req.user.id)` where
  `id = req.params.id` is a string (Express route parameters are strings) and
  `req.user.id` is a number (the MySQL `id` column); then
  `User.updateUserRole(id, role)` runs `UPDATE users SET role = ? WHERE id = ?`.
- `toggleUserStatus` (lines 212-227): same guard shape, then
  `User.toggleUserStatus(id)` flips `is_active`.

Source `src/server/src/server.js` lines 281-301,
`app.delete('/api/users/:id')`: guard `if (req.user.id === parseInt(id))`,
then `DELETE FROM users WHERE id = ?`. -/

/-- JavaScript values relevant to the id comparison: route parameters are
strings, JWT/database ids are numbers. -/
inductive JSValue where
  | str : String → JSValue
  | num : Int → JSValue
deriving DecidableEq, Repr

/-- JavaScript strict equality (`===`) on the values above: operands of
different types are never strictly equal. -/
def jsStrictEq : JSValue → JSValue → Bool
  | JSValue.str a, JSValue.str b => a == b
  | JSValue.num a, JSValue.num b => a == b
  | _, _ => false

/-- JavaScript `parseInt` on a decimal string: the longest numeric prefix
after optional whitespace and sign, `none` (NaN) when the string has no
numeric prefix. Route parameter ids are plain decimal strings, for which
this is exact. -/
def jsParseInt (s : String) : Option Int :=
  let chars := s.data.dropWhile (fun c => c == ' ')
  let negBody : Bool × List Char :=
    match chars with
    | '-' :: rest => (true, rest)
    | '+' :: rest => (false, rest)
    | cs => (false, cs)
  let digits := negBody.2.takeWhile (fun c => 48 ≤ c.toNat && c.toNat ≤ 57)
  if digits.isEmpty then none
  else
    let n : Nat := digits.foldl (fun acc c => acc * 10 + (c.toNat - 48)) 0
    some (if negBody.1 then -(n : Int) else (n : Int))

/-- MySQL coercion of a string bind parameter compared against an integer
`id` column: the string's numeric prefix (0 when there is none). -/
def mysqlStrToInt (s : String) : Int :=
  (jsParseInt s).getD 0

/-- One row of the `users` table, restricted to the columns the
user-management endpoints touch. -/
structure UserMgmtRow where
  id : Int
  role : String
  is_active : Bool
deriving DecidableEq, Repr

/-- Response plus resulting `users` table of a user-management handler. -/
structure UserMgmtResult where
  status : Nat
  message : String
  users : List UserMgmtRow
deriving DecidableEq, Repr

/-- Embedding of `updateUserRole` from `src/unnamed/part_000` lines 189-205.
`paramsId` is the (string) route parameter, `callerId` the authenticated
principal's (numeric) id. The guard uses JavaScript strict equality between
the two; `User.updateUserRole` then runs
`UPDATE users SET role = ? WHERE id = ?` with the string parameter coerced
by MySQL. -/
def updateUserRole (paramsId : String) (callerId : Int) (role : String)
    (users : List UserMgmtRow) : UserMgmtResult :=
  if jsStrictEq (JSValue.str paramsId) (JSValue.num callerId) then
    { status := 400, message := "Cannot change your own role", users := users }
  else
    { status := 200, message := "ok",
      users := users.map (fun u =>
        if u.id == mysqlStrToInt paramsId then { u with role := role } else u) }

/-- Embedding of `toggleUserStatus` from `src/unnamed/part_000`
lines 212-227: same self-guard shape, then `User.toggleUserStatus` flips the
`is_active` column of the target row (404 via thrown error becomes 500 in
this handler; the row-absent path returns 500 "Server error"). -/
def toggleUserStatus (paramsId : String) (callerId : Int)
    (users : List UserMgmtRow) : UserMgmtResult :=
  if jsStrictEq (JSValue.str paramsId) (JSValue.num callerId) then
    { status := 400, message := "Cannot deactivate your own account", users := users }
  else if users.any (fun u => u.id == mysqlStrToInt paramsId) then
    { status := 200, message := "ok",
      users := users.map (fun u =>
        if u.id == mysqlStrToInt paramsId then { u with is_active := !u.is_active } else u) }
  else
    { status := 500, message := "Server error", users := users }

/-- Embedding of `app.delete('/api/users/:id')` from
`src/server/src/server.js` lines 281-301: guard
`req.user.id === parseInt(id)` (both numbers after `parseInt`), then
`DELETE FROM users WHERE id = ?`. -/
def deleteUser (paramsId : String) (callerId : Int)
    (users : List UserMgmtRow) : UserMgmtResult :=
  if (jsParseInt paramsId).any (fun n => n == callerId) then
    { status := 400, message := "Cannot delete your own account", users := users }
  else if users.any (fun u => u.id == mysqlStrToInt paramsId) then
    { status := 204, message := "",
      users := users.filter (fun u => !(u.id == mysqlStrToInt paramsId)) }
  else
    { status := 404, message := "User not found", users := users }

/-! ### Theorems for claim C6 (role gate) -/

/-- Helper: boolean `List.contains` agrees with list membership. -/
theorem contains_true_iff (l : List String) (x : String) :
    l.contains x = true ↔ x ∈ l := by
  simp [List.contains, List.elem_eq_mem]

/-- C6 counterexample: the claim says a principal whose role is not in the
required set is rejected, "including an admin not listed in R". But
`checkContentPermission "editor"` passes an admin through even though
"admin" is not a member of the required set, and `authorize []` passes a
viewer through even though no role is a member of the empty set. -/
theorem C6_admin_bypass_counterexample :
    checkContentPermission "editor" "admin" = MWResult.next ∧
    ¬ ("admin" ∈ ["editor"]) ∧
    authorize [] (some "viewer") = MWResult.next ∧
    ¬ ("viewer" ∈ ([] : List String)) := by
  refine ⟨rfl, by decide, rfl, by decide⟩

/-- C6 amended: `authorize R` passes an authenticated principal with role r
if and only if R is empty or r is in R, and otherwise responds 403;
`checkContentPermission req` passes if and only if r is "admin" or r equals
the required role, and otherwise responds 403. -/
theorem C6_role_gate_amended (roles : List String) (r requiredRole : String) :
    (authorize roles (some r) = MWResult.next ↔ (roles = [] ∨ r ∈ roles)) ∧
    (¬ (roles = [] ∨ r ∈ roles) →
      authorize roles (some r) =
        MWResult.stop 403 ("User role " ++ r ++ " is not authorized to access this route")) ∧
    (checkContentPermission requiredRole r = MWResult.next ↔
      (r = "admin" ∨ r = requiredRole)) ∧
    (¬ (r = "admin" ∨ r = requiredRole) →
      checkContentPermission requiredRole r = MWResult.stop 403 "Insufficient permissions") := by
  refine ⟨?_, ?_, ?_, ?_⟩
  · unfold authorize
    cases roles with
    | nil => simp
    | cons a l =>
      by_cases hm : r ∈ a :: l
      · have hc : (a :: l).contains r = true := (contains_true_iff _ _).mpr hm
        simp [hc, hm]
      · have hc : (a :: l).contains r = false := by
          rcases Bool.eq_false_or_eq_true ((a :: l).contains r) with hb | hb
          · exact absurd ((contains_true_iff _ _).mp hb) hm
          · exact hb
        simp [hc, hm]
  · intro h
    push_neg at h
    unfold authorize
    have hlen : roles.length ≠ 0 := by
      intro hc
      exact h.1 (List.length_eq_zero.mp hc)
    have hc : roles.contains r = false := by
      rcases Bool.eq_false_or_eq_true (roles.contains r) with hb | hb
      · exact absurd ((contains_true_iff _ _).mp hb) h.2
      · exact hb
    simp [hlen, hc, h.2]
  · unfold checkContentPermission
    by_cases h1 : r = "admin" <;> by_cases h2 : r = requiredRole <;> simp_all
  · intro h
    push_neg at h
    unfold checkContentPermission
    have h1 : (r == "admin") = false := by simp [h.1]
    have h2 : (r == requiredRole) = false := by simp [h.2]
    simp [h1, h2]

/-- C6 amended witness: concrete evaluation at roles = ["editor"],
r = "viewer", requiredRole = "editor". -/
theorem C6_role_gate_amended_witness :
    authorize ["editor"] (some "viewer") =
      MWResult.stop 403 "User role viewer is not authorized to access this route" ∧
    checkContentPermission "editor" "viewer" = MWResult.stop 403 "Insufficient permissions" := by
  have h := C6_role_gate_amended ["editor"] "viewer" "editor"
  refine ⟨h.2.1 (by decide), h.2.2.2 (by decide)⟩

/-! ### Theorems for claim C9 (ownership gate on an ownerless row) -/

/-- C9: for a non-admin caller, when the loaded resource has all three owner
columns null, the owner-id extraction yields `null`, `toString` on it
throws, and the middleware responds 500 "Server error" — not 403 and not
`next()`. -/
theorem C9_null_owner_500 (findById : String → Option OwnedResource)
    (paramsId : String) (userRole : String) (userId : Int) (r : OwnedResource)
    (hrole : userRole ≠ "admin")
    (hfound : findById paramsId = some r)
    (ha : r.author_id = none) (hu : r.user_id = none) (hc : r.created_by = none) :
    isOwnerOrAdmin findById paramsId userRole userId = MWResult.stop 500 "Server error" := by
  unfold isOwnerOrAdmin
  have hbeq : (userRole == "admin") = false := by
    simp [hrole]
  simp [hbeq, hfound, ha, hu, hc, jsOr3, jsFalsyInt]

/-- C9 witness: concrete evaluation with a viewer caller and a post row
whose `author_id` was nulled by `ON DELETE SET NULL`. -/
theorem C9_null_owner_500_witness :
    isOwnerOrAdmin (fun _ => some ⟨none, none, none⟩) "7" "viewer" 3 =
      MWResult.stop 500 "Server error" :=
  C9_null_owner_500 (fun _ => some ⟨none, none, none⟩) "7" "viewer" 3
    ⟨none, none, none⟩ (by decide) rfl rfl rfl rfl

/-! ### Theorems for claim C1 (self-protection in admin user management) -/

/-- C1: the self-protection guard of `updateUserRole` and `toggleUserStatus`
compares the string route parameter to the numeric caller id with JavaScript
strict equality, which is false across types, so a caller targeting their
own id is NOT rejected with 400: the role update and the deactivation go
through (status 200, own row mutated). The delete endpoint, which uses
`parseInt`, does reject with 400 and leaves the table unchanged. -/
theorem C1_self_guard_dead_code :
    (updateUserRole "5" 5 "viewer" [⟨5, "admin", true⟩]).status = 200 ∧
    (updateUserRole "5" 5 "viewer" [⟨5, "admin", true⟩]).users = [⟨5, "viewer", true⟩] ∧
    (toggleUserStatus "5" 5 [⟨5, "admin", true⟩]).status = 200 ∧
    (toggleUserStatus "5" 5 [⟨5, "admin", true⟩]).users = [⟨5, "admin", false⟩] ∧
    (deleteUser "5" 5 [⟨5, "admin", true⟩]).status = 400 ∧
    (deleteUser "5" 5 [⟨5, "admin", true⟩]).users = [⟨5, "admin", true⟩] := by
  decide

/-! ## Authentication middleware

Source `src/unnamed/part_001` lines 158-200, `authenticate`: extracts the
token as `req.header('Authorization')?.replace('Bearer ', '')` (JavaScript
`String.replace` with a string pattern replaces only the first occurrence);
an absent or empty token yields 401; `jwt.verify` throws
`TokenExpiredError` (mapped to 401 "Token has expired") or
`JsonWebTokenError` (401 "Token is not valid"); the decoded id claim is
looked up with `User.findById` — a missing user yields 401 "Token is not
valid", a deactivated user 401 "User account is deactivated"; on success the
user and raw token are attached and `next()` is called. The middleware only
reads the user store; it performs no write.

Source `src/server/src/server.js` lines 90-101, `authenticateToken`:
extracts the token as `authHeader.split(' ')[1]`; absent token yields a bare
401; ANY verification error (malformed or expired alike) yields a bare 403;
on success the decoded payload itself is attached (no user-store lookup at
all). -/

/-- Outcome of `jwt.verify`, abstracted over the secret and the clock:
either a failure kind or the decoded payload's id claim. -/
inductive VerifyOutcome where
  | malformed : VerifyOutcome
  | expired : VerifyOutcome
  | ok : Nat → VerifyOutcome
deriving DecidableEq, Repr

/-- User-store rows as the authentication middleware sees them. -/
structure AuthUser where
  id : Nat
  is_active : Bool
deriving DecidableEq, Repr

/-- Removal of the first occurrence of `pat` from `s` (JavaScript
`s.replace(pat, '')` with a string pattern replaces only the first match). -/
def replaceFirstDrop (s pat : List Char) : List Char :=
  match s with
  | [] => []
  | c :: rest =>
    if pat.isPrefixOf (c :: rest) then (c :: rest).drop pat.length
    else c :: replaceFirstDrop rest pat

/-- Token extraction of `authenticate`:
`req.header('Authorization')?.replace('Bearer ', '')`, with the empty
string being falsy. -/
def extractTokenReplace (h : Option String) : Option String :=
  match h with
  | none => none
  | some s =>
    let t : String := ⟨replaceFirstDrop s.data ("Bearer ".data)⟩
    if t == "" then none else some t

/-- JavaScript `s.split(' ')` on the character list. -/
def splitOnSpace (s : List Char) : List (List Char) :=
  match s with
  | [] => [[]]
  | c :: rest =>
    let r := splitOnSpace rest
    if c == ' ' then [] :: r
    else
      match r with
      | [] => [[c]]
      | g :: gs => (c :: g) :: gs

/-- Token extraction of `authenticateToken`:
`authHeader && authHeader.split(' ')[1]`, with an out-of-range index giving
`undefined` and the empty string being falsy. -/
def extractTokenSplit (h : Option String) : Option String :=
  match h with
  | none => none
  | some s =>
    match (splitOnSpace s.data).get? 1 with
    | none => none
    | some t => if t.isEmpty then none else some (⟨t⟩ : String)

/-- Outcome of the `authenticate` middleware: the resolved user and raw
token attached to the request, or a rejection with status and message. -/
inductive AuthResult where
  | ok : AuthUser → String → AuthResult
  | reject : Nat → String → AuthResult
deriving DecidableEq, Repr

/-- Embedding of `authenticate` from `src/unnamed/part_001` lines 158-200.
`verify` abstracts `jwt.verify` (secret and clock fixed), `users` is the
`users` table read by `User.findById`. -/
def authenticate (verify : String → VerifyOutcome) (users : List AuthUser)
    (authHeader : Option String) : AuthResult :=
  match extractTokenReplace authHeader with
  | none => AuthResult.reject 401 "No token, authorization denied"
  | some token =>
    match verify token with
    | VerifyOutcome.malformed => AuthResult.reject 401 "Token is not valid"
    | VerifyOutcome.expired => AuthResult.reject 401 "Token has expired"
    | VerifyOutcome.ok uid =>
      match users.find? (fun u => u.id == uid) with
      | none => AuthResult.reject 401 "Token is not valid"
      | some u =>
        if !u.is_active then AuthResult.reject 401 "User account is deactivated"
        else AuthResult.ok u token

/-- Outcome of `authenticateToken`: the decoded payload id attached, or a
bare status rejection (`res.sendStatus`). -/
inductive TokenAuthResult where
  | ok : Nat → TokenAuthResult
  | reject : Nat → TokenAuthResult
deriving DecidableEq, Repr

/-- Embedding of `authenticateToken` from `src/server/src/server.js`
lines 90-101: no user-store access, 401 on a missing token, 403 on any
verification failure. -/
def authenticateToken (verify : String → VerifyOutcome)
    (authHeader : Option String) : TokenAuthResult :=
  match extractTokenSplit authHeader with
  | none => TokenAuthResult.reject 401
  | some token =>
    match verify token with
    | VerifyOutcome.ok uid => TokenAuthResult.ok uid
    | _ => TokenAuthResult.reject 403

/-! ### Theorems for claim C7 (authentication middleware) -/

/-- C7 counterexample: the claim says the authentication middleware responds
401 when the token is expired, but `authenticateToken` responds 403 on an
expired token. -/
theorem C7_expired_token_403_counterexample :
    authenticateToken (fun _ => VerifyOutcome.expired) (some "Bearer t") =
      TokenAuthResult.reject 403 ∧ (403 : Nat) ≠ 401 := by
  decide

/-- C7 amended: `authenticate` responds 401 when no bearer token is present,
401 on an expired token, 401 when the id claim resolves to no user or to a
deactivated user, and attaches the resolved user (with the raw token) only
on full success — it reads the user store and never writes it.
`authenticateToken` responds 401 on a missing token but 403 on ANY failed
verification, expired tokens included, and attaches the decoded payload
without consulting the user store. -/
theorem C7_auth_middleware_amended (verify : String → VerifyOutcome)
    (users : List AuthUser) (h : Option String) :
    (extractTokenReplace h = none →
      authenticate verify users h = AuthResult.reject 401 "No token, authorization denied") ∧
    (∀ t, extractTokenReplace h = some t → verify t = VerifyOutcome.expired →
      authenticate verify users h = AuthResult.reject 401 "Token has expired") ∧
    (∀ t, extractTokenReplace h = some t → verify t = VerifyOutcome.malformed →
      authenticate verify users h = AuthResult.reject 401 "Token is not valid") ∧
    (∀ t uid, extractTokenReplace h = some t → verify t = VerifyOutcome.ok uid →
      users.find? (fun u => u.id == uid) = none →
      authenticate verify users h = AuthResult.reject 401 "Token is not valid") ∧
    (∀ t uid u, extractTokenReplace h = some t → verify t = VerifyOutcome.ok uid →
      users.find? (fun v => v.id == uid) = some u → u.is_active = false →
      authenticate verify users h = AuthResult.reject 401 "User account is deactivated") ∧
    (∀ u t, authenticate verify users h = AuthResult.ok u t →
      extractTokenReplace h = some t ∧ verify t = VerifyOutcome.ok u.id ∧
      u ∈ users ∧ u.is_active = true) ∧
    (extractTokenSplit h = none →
      authenticateToken verify h = TokenAuthResult.reject 401) ∧
    (∀ t, extractTokenSplit h = some t →
      (verify t = VerifyOutcome.malformed ∨ verify t = VerifyOutcome.expired) →
      authenticateToken verify h = TokenAuthResult.reject 403) := by
  refine ⟨?_, ?_, ?_, ?_, ?_, ?_, ?_, ?_⟩
  · intro hx
    simp [authenticate, hx]
  · intro t hx hv
    simp [authenticate, hx, hv]
  · intro t hx hv
    simp [authenticate, hx, hv]
  · intro t uid hx hv hf
    simp [authenticate, hx, hv, hf]
  · intro t uid u hx hv hf hact
    simp [authenticate, hx, hv, hf, hact]
  · intro u t hok
    unfold authenticate at hok
    cases hx : extractTokenReplace h with
    | none => rw [hx] at hok; exact absurd hok (by simp)
    | some tok =>
      rw [hx] at hok
      cases hv : verify tok with
      | malformed => simp [hv] at hok
      | expired => simp [hv] at hok
      | ok uid =>
        simp only [hv] at hok
        cases hf : users.find? (fun v => v.id == uid) with
        | none => simp [hf] at hok
        | some v =>
          simp only [hf] at hok
          cases hact : v.is_active with
          | false => simp [hact] at hok
          | true =>
            have hok2 : v = u ∧ tok = t := by simpa [hact] using hok
            rcases hok2 with ⟨rfl, rfl⟩
            have hid : v.id = uid := by
              have := List.find?_some hf
              simpa using this
            refine ⟨rfl, by rw [hid]; exact hv, List.mem_of_find?_eq_some hf, hact⟩
  · intro hx
    simp [authenticateToken, hx]
  · intro t hx hv
    rcases hv with hv | hv <;> simp [authenticateToken, hx, hv]

/-- C7 amended witness: concrete evaluation with an expired token. -/
theorem C7_auth_middleware_amended_witness :
    authenticate (fun _ => VerifyOutcome.expired) [] (some "Bearer tok") =
      AuthResult.reject 401 "Token has expired" ∧
    authenticateToken (fun _ => VerifyOutcome.expired) (some "Bearer tok") =
      TokenAuthResult.reject 403 :=
  ⟨(C7_auth_middleware_amended (fun _ => VerifyOutcome.expired) [] (some "Bearer tok")).2.1
      "tok" (by decide) rfl,
   (C7_auth_middleware_amended (fun _ => VerifyOutcome.expired) [] (some "Bearer tok")).2.2.2.2.2.2.2
      "tok" (by decide) (Or.inr rfl)⟩

/-! ## Login implementations

Three login implementations exist in the codebase:
1. `User.login` (`src/unnamed/part_000` lines 312-337) called by the `login`
   controller (lines 62-83): "no such user" and "wrong password" both throw
   `Error('Invalid credentials')`, which the controller maps to
   401 with body containing only the message.
2. The route variant `app.post('/api/auth/login')` in `src/unnamed/part_000`
   lines 1570-1630: both failures respond 400 with
   message "Invalid credentials" but carry a `details` field that is
   "No user found with this email" in one case and "Incorrect password" in
   the other.
3. `app.post('/api/auth/login')` in `src/server/src/server.js`
   lines 446-488: both failures respond 400 with
   body containing success:false and message "Invalid credentials". -/

/-- User-store row as the login paths read it. -/
structure LoginUser where
  email : String
  password : String
  is_active : Bool
deriving DecidableEq, Repr

/-- HTTP response of a login attempt: status and the body fields that occur
across the three implementations (absent fields are `none`). `hasToken`
records whether a token/user payload was issued. -/
structure LoginResponse where
  status : Nat
  message : String
  details : Option String
  success : Option Bool
  hasToken : Bool
deriving DecidableEq, Repr

/-- Embedding of the `login` controller calling `User.login`
(`src/unnamed/part_000` lines 62-83 and 312-337). `bcompare` abstracts
`bcrypt.compare` (candidate password against stored hash). -/
def loginController (bcompare : String → String → Bool) (users : List LoginUser)
    (email password : String) : LoginResponse :=
  match users.find? (fun u => u.email == email) with
  | none =>
    { status := 401, message := "Invalid credentials", details := none,
      success := none, hasToken := false }
  | some u =>
    if !(bcompare password u.password) then
      { status := 401, message := "Invalid credentials", details := none,
        success := none, hasToken := false }
    else if !u.is_active then
      { status := 401, message := "Account is deactivated", details := none,
        success := none, hasToken := false }
    else
      { status := 200, message := "", details := none,
        success := none, hasToken := true }

/-- Embedding of the route variant `app.post('/api/auth/login')` in
`src/unnamed/part_000` lines 1570-1630 (empty strings are falsy, hence the
missing-credentials guard). -/
def loginRouteVariant (bcompare : String → String → Bool) (users : List LoginUser)
    (email password : String) : LoginResponse :=
  if email == "" || password == "" then
    { status := 400, message := "Email and password are required", details := none,
      success := none, hasToken := false }
  else
    match users.find? (fun u => u.email == email) with
    | none =>
      { status := 400, message := "Invalid credentials",
        details := some "No user found with this email",
        success := none, hasToken := false }
    | some u =>
      if !(bcompare password u.password) then
        { status := 400, message := "Invalid credentials",
          details := some "Incorrect password",
          success := none, hasToken := false }
      else
        { status := 200, message := "", details := none,
          success := none, hasToken := true }

/-- Embedding of `app.post('/api/auth/login')` in
`src/server/src/server.js` lines 446-488. -/
def serverLogin (bcompare : String → String → Bool) (users : List LoginUser)
    (email password : String) : LoginResponse :=
  match users.find? (fun u => u.email == email) with
  | none =>
    { status := 400, message := "Invalid credentials", details := none,
      success := some false, hasToken := false }
  | some u =>
    if !(bcompare password u.password) then
      { status := 400, message := "Invalid credentials", details := none,
        success := some false, hasToken := false }
    else
      { status := 200, message := "", details := none,
        success := some true, hasToken := true }

/-! ### Theorems for claim C2 (login failure indistinguishability) -/

/-- C2 counterexample: the claim says both failure cases carry the same
response body with no distinguishing field across EVERY login
implementation, but the route variant in `src/unnamed/part_000` returns a
`details` field that names the failing case, so the two bodies differ. -/
theorem C2_details_leak_counterexample :
    (loginRouteVariant (fun p h => p == "pw" && h == "H")
      [⟨"a@b.c", "H", true⟩] "x@y.z" "pw").details = some "No user found with this email" ∧
    (loginRouteVariant (fun p h => p == "pw" && h == "H")
      [⟨"a@b.c", "H", true⟩] "a@b.c" "bad").details = some "Incorrect password" ∧
    loginRouteVariant (fun p h => p == "pw" && h == "H")
      [⟨"a@b.c", "H", true⟩] "x@y.z" "pw" ≠
    loginRouteVariant (fun p h => p == "pw" && h == "H")
      [⟨"a@b.c", "H", true⟩] "a@b.c" "bad" := by
  decide

/-- C2 amended: in every login implementation the two failure cases share
the same status code, and in `User.login`/the controller and in the
server.js route the full bodies coincide; the part_000 route variant shares
the `message` field ("Invalid credentials") but distinguishes the cases
through its `details` field. -/
theorem C2_login_uniformity_amended (bcompare : String → String → Bool)
    (users : List LoginUser) (e1 e2 pw1 pw2 : String) (u : LoginUser)
    (h1 : users.find? (fun v => v.email == e1) = none)
    (h2 : users.find? (fun v => v.email == e2) = some u)
    (hpw : bcompare pw2 u.password = false)
    (he1 : e1 ≠ "") (he2 : e2 ≠ "") (hp1 : pw1 ≠ "") (hp2 : pw2 ≠ "") :
    loginController bcompare users e1 pw1 = loginController bcompare users e2 pw2 ∧
    serverLogin bcompare users e1 pw1 = serverLogin bcompare users e2 pw2 ∧
    (loginRouteVariant bcompare users e1 pw1).status =
      (loginRouteVariant bcompare users e2 pw2).status ∧
    (loginRouteVariant bcompare users e1 pw1).message =
      (loginRouteVariant bcompare users e2 pw2).message ∧
    (loginRouteVariant bcompare users e1 pw1).details ≠
      (loginRouteVariant bcompare users e2 pw2).details := by
  refine ⟨?_, ?_, ?_, ?_, ?_⟩ <;>
    simp [loginController, serverLogin, loginRouteVariant, h1, h2, hpw, he1, he2, hp1, hp2]

/-- C2 amended witness: concrete users, hash comparison and inputs. -/
theorem C2_login_uniformity_amended_witness :
    loginController (fun p h => p == "pw" && h == "H") [⟨"a@b.c", "H", true⟩] "x@y.z" "pw" =
      loginController (fun p h => p == "pw" && h == "H") [⟨"a@b.c", "H", true⟩] "a@b.c" "bad" ∧
    serverLogin (fun p h => p == "pw" && h == "H") [⟨"a@b.c", "H", true⟩] "x@y.z" "pw" =
      serverLogin (fun p h => p == "pw" && h == "H") [⟨"a@b.c", "H", true⟩] "a@b.c" "bad" :=
  have h := C2_login_uniformity_amended (fun p h => p == "pw" && h == "H")
    [⟨"a@b.c", "H", true⟩] "x@y.z" "a@b.c" "pw" "bad" ⟨"a@b.c", "H", true⟩
    (by decide) (by decide) (by decide) (by decide) (by decide) (by decide) (by decide)
  ⟨h.1, h.2.1⟩

/-! ## Change password

Source `src/unnamed/part_000` lines 277-291, `User.changePassword`: load
the user by id (throw "User not found" if absent), compare the supplied
current password against the stored hash with `bcrypt.compare` (throw
"Current password is incorrect" on mismatch), and only then hash the new
password and run `UPDATE users SET password = ? WHERE id = ?`. -/

/-- User-store row as the change-password path touches it. -/
structure PwUser where
  id : Nat
  password : String
deriving DecidableEq, Repr

/-- SQL write statements executed by `User.changePassword`. -/
inductive PwWrite where
  | updatePassword : Nat → PwWrite
deriving DecidableEq, Repr

/-- Result of `User.changePassword`: the thrown error if any, the resulting
`users` table, and the write statements that were executed. -/
structure ChangePwResult where
  error : Option String
  users : List PwUser
  writes : List PwWrite
deriving DecidableEq, Repr

/-- Embedding of `User.changePassword` from `src/unnamed/part_000`
lines 277-291. `bcompare` abstracts `bcrypt.compare`, `bhash` abstracts
`bcrypt.hash` with cost 10. -/
def User_changePassword (bcompare : String → String → Bool) (bhash : String → String)
    (id : Nat) (currentPassword newPassword : String)
    (users : List PwUser) : ChangePwResult :=
  match users.find? (fun u => u.id == id) with
  | none => { error := some "User not found", users := users, writes := [] }
  | some u =>
    if !(bcompare currentPassword u.password) then
      { error := some "Current password is incorrect", users := users, writes := [] }
    else
      { error := none,
        users := users.map (fun v =>
          if v.id == id then { v with password := bhash newPassword } else v),
        writes := [PwWrite.updatePassword id] }

/-! ### Theorem for claim C8 (wrong current password never rewrites) -/

/-- C8: when the supplied current password does not match the stored hash,
`User.changePassword` fails with "Current password is incorrect", executes
no UPDATE of the password column, and leaves the users table (hence the
stored hash) unchanged. -/
theorem C8_wrong_current_password_no_write (bcompare : String → String → Bool)
    (bhash : String → String) (id : Nat) (currentPassword newPassword : String)
    (users : List PwUser) (u : PwUser)
    (hfind : users.find? (fun v => v.id == id) = some u)
    (hmis : bcompare currentPassword u.password = false) :
    (User_changePassword bcompare bhash id currentPassword newPassword users).error =
      some "Current password is incorrect" ∧
    (User_changePassword bcompare bhash id currentPassword newPassword users).users = users ∧
    (User_changePassword bcompare bhash id currentPassword newPassword users).writes = [] := by
  simp [User_changePassword, hfind, hmis]

/-- C8 witness: concrete user, hash comparison and inputs. -/
theorem C8_wrong_current_password_no_write_witness :
    (User_changePassword (fun p h => p == "right" && h == "H") (fun s => s ++ "#")
      7 "wrong" "NewPass1!" [⟨7, "H"⟩]).users = [⟨7, "H"⟩] :=
  (C8_wrong_current_password_no_write (fun p h => p == "right" && h == "H")
    (fun s => s ++ "#") 7 "wrong" "NewPass1!" [⟨7, "H"⟩] ⟨7, "H"⟩
    (by decide) (by decide)).2.1

/-! ## Profile update

Source `src/unnamed/part_000` lines 268-274, `User.updateProfile`:
one statement
`UPDATE users SET first_name = ?, last_name = ?, email = ?, avatar = ? WHERE id = ?`
binding exactly the values the controller (lines 113-144) destructured from
the request body. All four body fields are `.optional()` in
`updateProfileValidator`, so an omitted field reaches the bind list as
JavaScript `undefined` — and the mysql2 driver's `execute` rejects an
undefined bind parameter by throwing
(TypeError: Bind parameters must not contain undefined; to pass SQL NULL
specify JS null) before any SQL reaches the database, which the
controller's catch turns into a 500 "Server error" response with no column
written. When every field is present (a string, or null), the single
UPDATE writes exactly the four columns; the `updated_at` column
auto-updates (`ON UPDATE CURRENT_TIMESTAMP` in the schema). -/

/-- Request-body fields of `Post.create`/`Post.update`. -/
structure PostInput where
  title : Option String
  slug : Option String
  content : Option String
  excerpt : Option String
  featuredImage : Option String
  metaTitle : Option String
  metaDescription : Option String
  metaKeywords : Option String
  isPublished : Bool
  categoryIds : List Nat
deriving DecidableEq, Repr

/-- One row of the `posts` table (schema `src/unnamed/part_001`
lines 42-58), timestamps as abstract instants. -/
structure PostRowFull where
  id : Nat
  title : Option String
  slug : Option String
  content : Option String
  excerpt : Option String
  featured_image : Option String
  meta_title : Option String
  meta_description : Option String
  meta_keywords : Option String
  is_published : Bool
  published_at : Option Nat
  author_id : Option Nat
deriving DecidableEq, Repr

/-- The `posts` and `post_categories` tables. -/
structure PostsState where
  posts : List PostRowFull
  post_categories : List (Nat × Nat)
deriving DecidableEq, Repr

/-- The row inserted by `Post.create`:
`published_at = isPublished ? new Date() : null`. -/
def createdPostRow (newId : Nat) (inp : PostInput) (authorId : Option Nat)
    (now : Nat) : PostRowFull :=
  { id := newId, title := inp.title, slug := inp.slug, content := inp.content,
    excerpt := inp.excerpt, featured_image := inp.featuredImage,
    meta_title := inp.metaTitle, meta_description := inp.metaDescription,
    meta_keywords := inp.metaKeywords, is_published := inp.isPublished,
    published_at := if inp.isPublished then some now else none,
    author_id := authorId }

/-- The SET clause of `Post.update` applied to one row; the CASE expression
on `published_at` is the publish-timestamp state machine. -/
def sqlUpdatePostRow (inp : PostInput) (now : Nat) (r : PostRowFull) : PostRowFull :=
  { r with
    title := inp.title, slug := inp.slug, content := inp.content,
    excerpt := inp.excerpt, featured_image := inp.featuredImage,
    meta_title := inp.metaTitle, meta_description := inp.metaDescription,
    meta_keywords := inp.metaKeywords, is_published := inp.isPublished,
    published_at :=
      if inp.isPublished = true ∧ r.published_at = none then some now
      else if inp.isPublished = false then none
      else r.published_at }

/-- SQL statements a post transaction executes (for tracing which
statements ran). -/
inductive SqlOp where
  | insertPost : SqlOp
  | updatePost : SqlOp
  | deleteLinks : SqlOp
  | insertLinks : List (Nat × Nat) → SqlOp
deriving DecidableEq, Repr

/-- Whether a traced statement is the bulk insert of category links. -/
def SqlOp.isInsertLinks : SqlOp → Bool
  | SqlOp.insertLinks _ => true
  | _ => false

/-- Outcome of a post transaction: the state after commit (or the original
state after rollback), the thrown error if any, the statements that were
executed inside the transaction, and whether the dedicated connection was
released. -/
structure TxnResult where
  state : PostsState
  error : Option String
  trace : List SqlOp
  released : Bool
deriving DecidableEq, Repr

/-- Embedding of `Post.update` from `src/unnamed/part_000` lines 610-676. -/
def Post_update (id : Nat) (inp : PostInput) (now : Nat) (st : PostsState) : TxnResult :=
  if (st.posts.filter (fun r => r.id == id)).length = 0 then
    { state := st, error := some "Post not found",
      trace := [SqlOp.updatePost], released := true }
  else if inp.categoryIds = [] then
    { state :=
        { posts := st.posts.map (fun r => if r.id == id then sqlUpdatePostRow inp now r else r),
          post_categories := st.post_categories.filter (fun pc => !(pc.1 == id)) },
      error := none, trace := [SqlOp.updatePost, SqlOp.deleteLinks], released := true }
  else if (inp.categoryIds.map (fun c => (id, c))).Nodup ∧
      ∀ pr ∈ inp.categoryIds.map (fun c => (id, c)),
        pr ∉ st.post_categories.filter (fun pc => !(pc.1 == id)) then
    { state :=
        { posts := st.posts.map (fun r => if r.id == id then sqlUpdatePostRow inp now r else r),
          post_categories := st.post_categories.filter (fun pc => !(pc.1 == id)) ++
            inp.categoryIds.map (fun c => (id, c)) },
      error := none,
      trace := [SqlOp.updatePost, SqlOp.deleteLinks,
                SqlOp.insertLinks (inp.categoryIds.map (fun c => (id, c)))],
      released := true }
  else
    { state := st, error := some "ER_DUP_ENTRY",
      trace := [SqlOp.updatePost, SqlOp.deleteLinks,
                SqlOp.insertLinks (inp.categoryIds.map (fun c => (id, c)))],
      released := true }

/-- Embedding of `Post.create` from `src/unnamed/part_000` lines 371-428
(`newId` is the auto-increment id; the row insert fails on an id collision
or a duplicate non-null slug, both UNIQUE in the schema). -/
def Post_create (newId : Nat) (inp : PostInput) (authorId : Option Nat) (now : Nat)
    (st : PostsState) : TxnResult :=
  if (∃ r ∈ st.posts, r.id = newId) ∨ (inp.slug ≠ none ∧ ∃ r ∈ st.posts, r.slug = inp.slug) then
    { state := st, error := some "ER_DUP_ENTRY",
      trace := [SqlOp.insertPost], released := true }
  else if inp.categoryIds = [] then
    { state :=
        { posts := st.posts ++ [createdPostRow newId inp authorId now],
          post_categories := st.post_categories },
      error := none, trace := [SqlOp.insertPost], released := true }
  else if (inp.categoryIds.map (fun c => (newId, c))).Nodup ∧
      ∀ pr ∈ inp.categoryIds.map (fun c => (newId, c)), pr ∉ st.post_categories then
    { state :=
        { posts := st.posts ++ [createdPostRow newId inp authorId now],
          post_categories := st.post_categories ++ inp.categoryIds.map (fun c => (newId, c)) },
      error := none,
      trace := [SqlOp.insertPost,
                SqlOp.insertLinks (inp.categoryIds.map (fun c => (newId, c)))],
      released := true }
  else
    { state := st, error := some "ER_DUP_ENTRY",
      trace := [SqlOp.insertPost,
                SqlOp.insertLinks (inp.categoryIds.map (fun c => (newId, c)))],
      released := true }

/-! ### Filter helper lemmas -/

/-- Helper: filtering for a predicate after filtering for its negation
yields nothing. -/
theorem filter_neg_then_pos {α : Type} (p : α → Bool) (l : List α) :
    (l.filter (fun a => !(p a))).filter p = [] := by
  induction l with
  | nil => rfl
  | cons a l ih => cases h : p a <;> simp [List.filter_cons, h, ih]

/-- Helper: filtering twice with the same predicate is the same as once. -/
theorem filter_twice {α : Type} (p : α → Bool) (l : List α) :
    (l.filter p).filter p = l.filter p := by
  induction l with
  | nil => rfl
  | cons a l ih => cases h : p a <;> simp [List.filter_cons, h, ih]

/-- Helper: all pairs produced for one post id survive the same-key filter. -/
theorem filter_pos_map_pair (id : Nat) (cs : List Nat) :
    (cs.map (fun c => (id, c))).filter (fun pc => pc.1 == id) = cs.map (fun c => (id, c)) := by
  induction cs with
  | nil => rfl
  | cons a l ih => simp [List.filter_cons, ih]

/-- Helper: no pair produced for one post id survives the other-key filter. -/
theorem filter_neg_map_pair (id : Nat) (cs : List Nat) :
    (cs.map (fun c => (id, c))).filter (fun pc => !(pc.1 == id)) = [] := by
  induction cs with
  | nil => rfl
  | cons a l ih => simp [List.filter_cons, ih]

/-! ### Per-branch lemmas about Post_update and Post_create -/

/-- Helper: on success, `Post.update` leaves exactly the supplied category
set linked to the post (no duplicates) and does not disturb other posts'
links. -/
theorem Post_update_success_links (id : Nat) (inp : PostInput) (now : Nat)
    (st : PostsState) (herr : (Post_update id inp now st).error = none) :
    (Post_update id inp now st).state.post_categories.filter (fun pc => pc.1 == id) =
      inp.categoryIds.map (fun c => (id, c)) ∧
    inp.categoryIds.Nodup ∧
    (Post_update id inp now st).state.post_categories.filter (fun pc => !(pc.1 == id)) =
      st.post_categories.filter (fun pc => !(pc.1 == id)) := by
  unfold Post_update at herr ⊢
  by_cases h1 : (st.posts.filter (fun r => r.id == id)).length = 0
  · rw [if_pos h1] at herr
    simp at herr
  · rw [if_neg h1] at herr ⊢
    by_cases h2 : inp.categoryIds = []
    · rw [if_pos h2] at herr ⊢
      refine ⟨?_, ?_, ?_⟩ <;> simp [h2, filter_neg_then_pos, filter_twice]
    · rw [if_neg h2] at herr ⊢
      by_cases h3 : (inp.categoryIds.map (fun c => (id, c))).Nodup ∧
          ∀ pr ∈ inp.categoryIds.map (fun c => (id, c)),
            pr ∉ st.post_categories.filter (fun pc => !(pc.1 == id))
      · rw [if_pos h3] at herr ⊢
        refine ⟨?_, List.Nodup.of_map _ h3.1, ?_⟩
        · simp [List.filter_append, filter_neg_then_pos, filter_pos_map_pair]
        · simp [List.filter_append, filter_twice, filter_neg_map_pair]
      · rw [if_neg h3] at herr
        simp at herr

/-- Helper: any failing `Post.update` rolls back to the original state. -/
theorem Post_update_rollback (id : Nat) (inp : PostInput) (now : Nat)
    (st : PostsState) (herr : (Post_update id inp now st).error ≠ none) :
    (Post_update id inp now st).state = st := by
  unfold Post_update at herr ⊢
  by_cases h1 : (st.posts.filter (fun r => r.id == id)).length = 0
  · rw [if_pos h1]
  · rw [if_neg h1] at herr ⊢
    by_cases h2 : inp.categoryIds = []
    · rw [if_pos h2] at herr
      simp at herr
    · rw [if_neg h2] at herr ⊢
      by_cases h3 : (inp.categoryIds.map (fun c => (id, c))).Nodup ∧
          ∀ pr ∈ inp.categoryIds.map (fun c => (id, c)),
            pr ∉ st.post_categories.filter (fun pc => !(pc.1 == id))
      · rw [if_pos h3] at herr
        simp at herr
      · rw [if_neg h3]

/-- Helper: with an empty category list, `Post.update` never attempts the
bulk insert. -/
theorem Post_update_empty_skips_insert (id : Nat) (inp : PostInput) (now : Nat)
    (st : PostsState) (h2 : inp.categoryIds = []) :
    ∀ op ∈ (Post_update id inp now st).trace, op.isInsertLinks = false := by
  unfold Post_update
  by_cases h1 : (st.posts.filter (fun r => r.id == id)).length = 0
  · rw [if_pos h1]
    simp [SqlOp.isInsertLinks]
  · rw [if_neg h1, if_pos h2]
    simp [SqlOp.isInsertLinks]

/-- Helper: `Post.update` releases its dedicated connection on every exit
path. -/
theorem Post_update_released (id : Nat) (inp : PostInput) (now : Nat)
    (st : PostsState) : (Post_update id inp now st).released = true := by
  unfold Post_update
  by_cases h1 : (st.posts.filter (fun r => r.id == id)).length = 0
  · rw [if_pos h1]
  · rw [if_neg h1]
    by_cases h2 : inp.categoryIds = []
    · rw [if_pos h2]
    · rw [if_neg h2]
      by_cases h3 : (inp.categoryIds.map (fun c => (id, c))).Nodup ∧
          ∀ pr ∈ inp.categoryIds.map (fun c => (id, c)),
            pr ∉ st.post_categories.filter (fun pc => !(pc.1 == id))
      · rw [if_pos h3]
      · rw [if_neg h3]

/-- Helper: on success, `Post.create` links exactly the supplied category
set to the fresh post id (given that no existing link uses the fresh id,
which the foreign keys guarantee). -/
theorem Post_create_success_links (newId : Nat) (inp : PostInput)
    (authorId : Option Nat) (now : Nat) (st : PostsState)
    (hfk : ∀ pr ∈ st.post_categories, pr.1 ≠ newId)
    (herr : (Post_create newId inp authorId now st).error = none) :
    (Post_create newId inp authorId now st).state.post_categories.filter
        (fun pc => pc.1 == newId) =
      inp.categoryIds.map (fun c => (newId, c)) ∧
    inp.categoryIds.Nodup := by
  have hnone : st.post_categories.filter (fun pc => pc.1 == newId) = [] := by
    refine List.filter_eq_nil_iff.mpr ?_
    intro pr hpr
    simpa using hfk pr hpr
  unfold Post_create at herr ⊢
  by_cases h1 : (∃ r ∈ st.posts, r.id = newId) ∨
      (inp.slug ≠ none ∧ ∃ r ∈ st.posts, r.slug = inp.slug)
  · rw [if_pos h1] at herr
    simp at herr
  · rw [if_neg h1] at herr ⊢
    by_cases h2 : inp.categoryIds = []
    · rw [if_pos h2] at herr ⊢
      constructor <;> simp [h2, hnone]
    · rw [if_neg h2] at herr ⊢
      by_cases h3 : (inp.categoryIds.map (fun c => (newId, c))).Nodup ∧
          ∀ pr ∈ inp.categoryIds.map (fun c => (newId, c)), pr ∉ st.post_categories
      · rw [if_pos h3] at herr ⊢
        refine ⟨?_, List.Nodup.of_map _ h3.1⟩
        simp [List.filter_append, hnone, filter_pos_map_pair]
      · rw [if_neg h3] at herr
        simp at herr

/-- Helper: any failing `Post.create` rolls back to the original state. -/
theorem Post_create_rollback (newId : Nat) (inp : PostInput)
    (authorId : Option Nat) (now : Nat) (st : PostsState)
    (herr : (Post_create newId inp authorId now st).error ≠ none) :
    (Post_create newId inp authorId now st).state = st := by
  unfold Post_create at herr ⊢
  by_cases h1 : (∃ r ∈ st.posts, r.id = newId) ∨
      (inp.slug ≠ none ∧ ∃ r ∈ st.posts, r.slug = inp.slug)
  · rw [if_pos h1]
  · rw [if_neg h1] at herr ⊢
    by_cases h2 : inp.categoryIds = []
    · rw [if_pos h2] at herr
      simp at herr
    · rw [if_neg h2] at herr ⊢
      by_cases h3 : (inp.categoryIds.map (fun c => (newId, c))).Nodup ∧
          ∀ pr ∈ inp.categoryIds.map (fun c => (newId, c)), pr ∉ st.post_categories
      · rw [if_pos h3] at herr
        simp at herr
      · rw [if_neg h3]

/-- Helper: with an empty category list, `Post.create` never attempts the
bulk insert. -/
theorem Post_create_empty_skips_insert (newId : Nat) (inp : PostInput)
    (authorId : Option Nat) (now : Nat) (st : PostsState)
    (h2 : inp.categoryIds = []) :
    ∀ op ∈ (Post_create newId inp authorId now st).trace, op.isInsertLinks = false := by
  unfold Post_create
  by_cases h1 : (∃ r ∈ st.posts, r.id = newId) ∨
      (inp.slug ≠ none ∧ ∃ r ∈ st.posts, r.slug = inp.slug)
  · rw [if_pos h1]
    simp [SqlOp.isInsertLinks]
  · rw [if_neg h1, if_pos h2]
    simp [SqlOp.isInsertLinks]

/-- Helper: `Post.create` releases its dedicated connection on every exit
path. -/
theorem Post_create_released (newId : Nat) (inp : PostInput)
    (authorId : Option Nat) (now : Nat) (st : PostsState) :
    (Post_create newId inp authorId now st).released = true := by
  unfold Post_create
  by_cases h1 : (∃ r ∈ st.posts, r.id = newId) ∨
      (inp.slug ≠ none ∧ ∃ r ∈ st.posts, r.slug = inp.slug)
  · rw [if_pos h1]
  · rw [if_neg h1]
    by_cases h2 : inp.categoryIds = []
    · rw [if_pos h2]
    · rw [if_neg h2]
      by_cases h3 : (inp.categoryIds.map (fun c => (newId, c))).Nodup ∧
          ∀ pr ∈ inp.categoryIds.map (fun c => (newId, c)), pr ∉ st.post_categories
      · rw [if_pos h3]
      · rw [if_neg h3]

/-! ### Theorem for claim C5 (atomic category replacement) -/

/-- C5: post create/update with a category list is atomic: on success the
post's linked categories are exactly the supplied set (no duplicates, no
leftovers, other posts' links untouched); on any failure the state is fully
rolled back; an empty category list skips the bulk insert; and the
dedicated connection is released on every exit path. -/
theorem C5_transactional_category_replacement (id newId : Nat) (inp : PostInput)
    (authorId : Option Nat) (now : Nat) (st : PostsState) :
    ((Post_update id inp now st).error = none →
      (Post_update id inp now st).state.post_categories.filter (fun pc => pc.1 == id) =
        inp.categoryIds.map (fun c => (id, c)) ∧
      inp.categoryIds.Nodup ∧
      (Post_update id inp now st).state.post_categories.filter (fun pc => !(pc.1 == id)) =
        st.post_categories.filter (fun pc => !(pc.1 == id))) ∧
    ((Post_update id inp now st).error ≠ none → (Post_update id inp now st).state = st) ∧
    (inp.categoryIds = [] →
      ∀ op ∈ (Post_update id inp now st).trace, op.isInsertLinks = false) ∧
    (Post_update id inp now st).released = true ∧
    ((∀ pr ∈ st.post_categories, pr.1 ≠ newId) →
      (Post_create newId inp authorId now st).error = none →
      (Post_create newId inp authorId now st).state.post_categories.filter
          (fun pc => pc.1 == newId) =
        inp.categoryIds.map (fun c => (newId, c)) ∧
      inp.categoryIds.Nodup) ∧
    ((Post_create newId inp authorId now st).error ≠ none →
      (Post_create newId inp authorId now st).state = st) ∧
    (inp.categoryIds = [] →
      ∀ op ∈ (Post_create newId inp authorId now st).trace, op.isInsertLinks = false) ∧
    (Post_create newId inp authorId now st).released = true :=
  ⟨Post_update_success_links id inp now st,
   Post_update_rollback id inp now st,
   Post_update_empty_skips_insert id inp now st,
   Post_update_released id inp now st,
   fun hfk => Post_create_success_links newId inp authorId now st hfk,
   Post_create_rollback newId inp authorId now st,
   Post_create_empty_skips_insert newId inp authorId now st,
   Post_create_released newId inp authorId now st⟩

/-- Concrete update input with categories [20, 30] (the [B,C] of the spec
example). -/
def catUpdateInput : PostInput :=
  { title := some "T", slug := some "t", content := some "body",
    excerpt := none, featuredImage := none, metaTitle := none,
    metaDescription := none, metaKeywords := none,
    isPublished := true, categoryIds := [20, 30] }

/-- Concrete state: post 1 currently linked to categories [10, 20] (the
[A,B] of the spec example). -/
def catSeedState : PostsState :=
  { posts := [{ id := 1, title := some "Old", slug := some "t",
                content := some "old", excerpt := none, featured_image := none,
                meta_title := none, meta_description := none, meta_keywords := none,
                is_published := false, published_at := none, author_id := some 3 }],
    post_categories := [(1, 10), (1, 20)] }

/-- C5 witness: updating post 1 from categories [10, 20] to [20, 30]
succeeds and leaves exactly the pairs (1,20), (1,30) linked; the connection
is released. -/
theorem C5_transactional_category_replacement_witness :
    (Post_update 1 catUpdateInput 5 catSeedState).state.post_categories.filter
        (fun pc => pc.1 == 1) = [(1, 20), (1, 30)] ∧
    (Post_update 1 catUpdateInput 5 catSeedState).released = true :=
  ⟨(((C5_transactional_category_replacement 1 99 catUpdateInput none 5 catSeedState).1
      (by decide)).1).trans (by decide),
   (C5_transactional_category_replacement 1 99 catUpdateInput none 5 catSeedState).2.2.2.1⟩

/-! ### Theorems for claim C4 (publish-timestamp state machine) -/

/-- Post rows reachable through the repository's own operations: created by
`Post.create`'s INSERT, then edited any number of times by `Post.update`'s
SET clause. -/
inductive ReachableRow : PostRowFull → Prop where
  | created : ∀ (newId : Nat) (inp : PostInput) (authorId : Option Nat) (now : Nat),
      ReachableRow (createdPostRow newId inp authorId now)
  | updated : ∀ (r : PostRowFull) (inp : PostInput) (now : Nat),
      ReachableRow r → ReachableRow (sqlUpdatePostRow inp now r)

/-- C4: the publish timestamp obeys the three-state machine. For every
reachable post row, the timestamp is null whenever the row is unpublished;
an update that publishes a row whose timestamp is null stamps it with now;
an update that keeps a stamped row published preserves the timestamp
unchanged; and an update that unpublishes clears it to null. -/
theorem C4_publish_timestamp_state_machine :
    (∀ r : PostRowFull, ReachableRow r → r.is_published = false → r.published_at = none) ∧
    (∀ (r : PostRowFull) (inp : PostInput) (now : Nat),
      r.published_at = none → inp.isPublished = true →
      (sqlUpdatePostRow inp now r).published_at = some now) ∧
    (∀ (r : PostRowFull) (inp : PostInput) (now t : Nat),
      r.published_at = some t → inp.isPublished = true →
      (sqlUpdatePostRow inp now r).published_at = some t) ∧
    (∀ (r : PostRowFull) (inp : PostInput) (now : Nat),
      inp.isPublished = false →
      (sqlUpdatePostRow inp now r).published_at = none) := by
  refine ⟨?_, ?_, ?_, ?_⟩
  · intro r hr hpub
    cases hr with
    | created newId inp authorId now =>
      have hp : inp.isPublished = false := by
        simpa [createdPostRow] using hpub
      simp [createdPostRow, hp]
    | updated r inp now hr =>
      have hp : inp.isPublished = false := by
        simpa [sqlUpdatePostRow] using hpub
      simp [sqlUpdatePostRow, hp]
  · intro r inp now hnone hp
    simp [sqlUpdatePostRow, hnone, hp]
  · intro r inp now t hsome hp
    simp [sqlUpdatePostRow, hsome, hp]
  · intro r inp now hp
    simp [sqlUpdatePostRow, hp]

/-- Concrete draft input (unpublished). -/
def draftPostInput : PostInput :=
  { title := some "D", slug := some "d", content := none, excerpt := none,
    featuredImage := none, metaTitle := none, metaDescription := none,
    metaKeywords := none, isPublished := false, categoryIds := [] }

/-- Concrete publishing input. -/
def publishPostInput : PostInput :=
  { title := some "D", slug := some "d", content := none, excerpt := none,
    featuredImage := none, metaTitle := none, metaDescription := none,
    metaKeywords := none, isPublished := true, categoryIds := [] }

/-- C4 witness: a freshly created draft has no timestamp; publishing it
stamps it with now; an edit that stays published keeps the stamp; and
unpublishing clears it. -/
theorem C4_publish_timestamp_state_machine_witness :
    (createdPostRow 1 draftPostInput none 0).published_at = none ∧
    (sqlUpdatePostRow publishPostInput 7 (createdPostRow 1 draftPostInput none 0)).published_at =
      some 7 ∧
    (sqlUpdatePostRow publishPostInput 9
      (sqlUpdatePostRow publishPostInput 7 (createdPostRow 1 draftPostInput none 0))).published_at =
      some 7 ∧
    (sqlUpdatePostRow draftPostInput 11
      (sqlUpdatePostRow publishPostInput 7 (createdPostRow 1 draftPostInput none 0))).published_at =
      none :=
  ⟨C4_publish_timestamp_state_machine.1 (createdPostRow 1 draftPostInput none 0)
      (ReachableRow.created 1 draftPostInput none 0) (by decide),
   C4_publish_timestamp_state_machine.2.1 (createdPostRow 1 draftPostInput none 0)
      publishPostInput 7 (by decide) (by decide),
   C4_publish_timestamp_state_machine.2.2.1
      (sqlUpdatePostRow publishPostInput 7 (createdPostRow 1 draftPostInput none 0))
      publishPostInput 9 7 (by decide) (by decide),
   C4_publish_timestamp_state_machine.2.2.2
      (sqlUpdatePostRow publishPostInput 7 (createdPostRow 1 draftPostInput none 0))
      draftPostInput 11 (by decide)⟩

/-! ## Post listing with pagination and filters (Post.findAll)

Source `src/unnamed/part_000` lines 509-607, `Post.findAll`: builds one
shared `FROM posts p LEFT JOIN users u ... LEFT JOIN post_categories pc ON
p.id = pc.post_id LEFT JOIN categories c ON pc.category_id = c.id WHERE
1=1` fragment, appends a predicate per non-default filter (free-text LIKE
over title/content/excerpt, publication status, category slug, featured
flag) with its bindings; executes the fragment once under
`COUNT(DISTINCT p.id)` for `total`, then appends
`GROUP BY p.id ORDER BY p.published_at DESC LIMIT ? OFFSET ?` and executes
it again for the page; returns `totalPages = Math.ceil(total / limit)`.
The users join adds no predicate and at most one row per post
(`author_id` is a single foreign key), so it is omitted from the row model;
the category left-join, which does multiply rows, is modelled exactly. -/

/-- One row of the `categories` table. -/
structure CategoryRow where
  id : Nat
  name : String
  slug : String
deriving DecidableEq, Repr

/-- One row of the `posts` table, restricted to the columns
`Post.findAll` filters and orders by (`title` is NOT NULL; `content` and
`excerpt` are nullable). -/
structure ListedPost where
  id : Nat
  title : String
  content : Option String
  excerpt : Option String
  is_published : Bool
  is_featured : Bool
  published_at : Option Nat
deriving DecidableEq, Repr

/-- The filter arguments of `Post.findAll` (defaults: empty search,
status "published", no category, no featured flag). -/
structure PostFilters where
  search : String
  status : String
  category : Option String
  featured : Option Bool
deriving DecidableEq, Repr

/-- The tables `Post.findAll` reads. -/
structure PostListDB where
  posts : List ListedPost
  categories : List CategoryRow
  post_categories : List (Nat × Nat)
deriving DecidableEq, Repr

/-- Whether `pat` occurs as a contiguous run inside `s`. -/
def containsSub (pat : List Char) : List Char → Bool
  | [] => pat.isEmpty
  | c :: rest => pat.isPrefixOf (c :: rest) || containsSub pat rest

/-- MySQL `col LIKE '%pat%'` under the default case-insensitive
collation. -/
def likeContains (pat s : String) : Bool :=
  containsSub pat.toLower.data s.toLower.data

/-- MySQL `col LIKE '%pat%'` on a nullable column: NULL never matches. -/
def likeOptContains (pat : String) (s : Option String) : Bool :=
  match s with
  | none => false
  | some s => likeContains pat s

/-- The search predicate: omitted entirely (hence true) when the search
string is empty (falsy in JavaScript), otherwise
`p.title LIKE ? OR p.content LIKE ? OR p.excerpt LIKE ?`. -/
def searchWhere (search : String) (p : ListedPost) : Bool :=
  search == "" ||
    (likeContains search p.title || likeOptContains search p.content ||
      likeOptContains search p.excerpt)

/-- The status predicate: `p.is_published = TRUE` for "published",
`p.is_published = FALSE` for "draft", no predicate otherwise. -/
def statusWhere (status : String) (p : ListedPost) : Bool :=
  if status == "published" then p.is_published
  else if status == "draft" then !p.is_published
  else true

/-- The featured predicate: `p.is_featured = ?` when the flag was given. -/
def featuredWhere (featured : Option Bool) (p : ListedPost) : Bool :=
  match featured with
  | none => true
  | some b => p.is_featured == b

/-- The conjunction of the post-level predicates of the shared WHERE
clause. -/
def postWhere (f : PostFilters) (p : ListedPost) : Bool :=
  searchWhere f.search p && statusWhere f.status p && featuredWhere f.featured p

/-- The category predicate `c.slug = ?`, evaluated on the joined category
of one row: a NULL joined row never matches a given slug. -/
def catWhere (category : Option String) (oc : Option CategoryRow) : Bool :=
  match category with
  | none => true
  | some slug =>
    match oc with
    | none => false
    | some c => c.slug == slug

/-- LEFT JOIN of one post against `post_categories` and `categories`: a
post with no links contributes a single row with a NULL category; a post
with links contributes one row per link. -/
def postJoinRows (db : PostListDB) (p : ListedPost) : List (Option CategoryRow) :=
  if db.post_categories.filter (fun pc => pc.1 == p.id) = [] then [none]
  else
    (db.post_categories.filter (fun pc => pc.1 == p.id)).map
      (fun pc => db.categories.find? (fun c => c.id == pc.2))

/-- The join rows one post contributes, paired with the post. -/
def rowsFor (db : PostListDB) (p : ListedPost) : List (ListedPost × Option CategoryRow) :=
  (postJoinRows db p).map (fun oc => (p, oc))

/-- All rows of the shared FROM/JOIN fragment. -/
def joinRows (db : PostListDB) : List (ListedPost × Option CategoryRow) :=
  db.posts.flatMap (rowsFor db)

/-- The shared fragment after the WHERE clause — used by BOTH the count
query and the page query with identical predicates and bindings. -/
def filteredRows (db : PostListDB) (f : PostFilters) :
    List (ListedPost × Option CategoryRow) :=
  (joinRows db).filter (fun r => postWhere f r.1 && catWhere f.category r.2)

/-- `SELECT COUNT(DISTINCT p.id)` over the shared fragment. -/
def countDistinctPosts (db : PostListDB) (f : PostFilters) : Nat :=
  (((filteredRows db f).map (fun r => r.1.id)).dedup).length

/-- `GROUP BY p.id` over the shared fragment: one post per distinct id. -/
def groupedPosts (db : PostListDB) (f : PostFilters) : List ListedPost :=
  (((filteredRows db f).map (fun r => r.1.id)).dedup).filterMap
    (fun i => db.posts.find? (fun p => p.id == i))

/-- MySQL sort key for `ORDER BY p.published_at DESC`: NULL sorts lowest,
hence last in descending order. -/
def pubKey (p : ListedPost) : Nat :=
  match p.published_at with
  | none => 0
  | some t => t + 1

/-- `ORDER BY p.published_at DESC`. -/
def sortByPubDesc (l : List ListedPost) : List ListedPost :=
  List.insertionSort (fun a b => pubKey b ≤ pubKey a) l

/-- The value `Post.findAll` resolves with: the page of rows and the
pagination metadata. -/
structure FindAllResult where
  data : List ListedPost
  total : Nat
  page : Nat
  limit : Nat
  totalPages : Nat
deriving DecidableEq, Repr

/-- Embedding of `Post.findAll` from `src/unnamed/part_000` lines 509-607.
`Math.ceil(total / limit)` on naturals with `limit > 0` is
`(total + limit - 1) / limit`. -/
def Post_findAll (db : PostListDB) (f : PostFilters) (page limit : Nat) : FindAllResult :=
  { data := ((sortByPubDesc (groupedPosts db f)).drop ((page - 1) * limit)).take limit,
    total := countDistinctPosts db f,
    page := page,
    limit := limit,
    totalPages := (countDistinctPosts db f + limit - 1) / limit }

/-- How many filtered join rows one post contributes to the shared
fragment. -/
def kcount (db : PostListDB) (f : PostFilters) (p : ListedPost) : Nat :=
  if postWhere f p then
    ((postJoinRows db p).filter (fun oc => catWhere f.category oc)).length
  else 0

/-- A post satisfies the filters, read directly off the filter list: the
post-level predicates hold and, when a category slug is given, some link of
the post joins to a category with that slug. -/
def postMatchesFilters (db : PostListDB) (f : PostFilters) (p : ListedPost) : Bool :=
  postWhere f p &&
    (match f.category with
     | none => true
     | some slug =>
       db.post_categories.any (fun pc => pc.1 == p.id &&
         (db.categories.find? (fun c => c.id == pc.2)).any (fun c => c.slug == slug)))

/-! ### Helper lemmas for the count/page consistency proof -/

/-- Helper: `any` over a mapped list. -/
theorem any_map_local {α β : Type} (l : List α) (f : α → β) (p : β → Bool) :
    (l.map f).any p = l.any (fun a => p (f a)) := by
  induction l with
  | nil => rfl
  | cons a t ih => simp [ih]

/-- Helper: `any` respects pointwise equality on the list. -/
theorem any_congr_local {α : Type} (l : List α) (p q : α → Bool)
    (h : ∀ a ∈ l, p a = q a) : l.any p = l.any q := by
  induction l with
  | nil => rfl
  | cons a t ih =>
    simp only [List.any_cons]
    rw [h a (List.mem_cons_self a t), ih (fun x hx => h x (List.mem_cons_of_mem a hx))]

/-- Helper: `any` after a filter folds the filter into the predicate. -/
theorem any_filter_and {α : Type} (l : List α) (p q : α → Bool) :
    (l.filter p).any q = l.any (fun a => p a && q a) := by
  induction l with
  | nil => rfl
  | cons a t ih => cases hp : p a <;> simp [List.filter_cons, hp, ih]

/-- Helper: a filter is nonempty exactly when `any` holds, phrased as
booleans on the length. -/
theorem bne_filter_length_eq_any {α : Type} (l : List α) (q : α → Bool) :
    (!((l.filter q).length == 0)) = l.any q := by
  induction l with
  | nil => rfl
  | cons a t ih => cases hq : q a <;> simp [List.filter_cons, hq, ih]

/-- Helper: the filtered ids contributed by one post's join rows are
`kcount` copies of its id. -/
theorem filter_map_pair_id (f : PostFilters) (p : ListedPost)
    (l : List (Option CategoryRow)) :
    (((l.map (fun oc => (p, oc))).filter
        (fun r => postWhere f r.1 && catWhere f.category r.2)).map (fun r => r.1.id))
      = List.replicate
          (if postWhere f p then (l.filter (fun oc => catWhere f.category oc)).length else 0)
          p.id := by
  induction l with
  | nil => cases hp : postWhere f p <;> simp [hp]
  | cons oc l ih =>
    cases hp : postWhere f p with
    | false =>
      simp only [hp, if_neg Bool.false_ne_true] at ih ⊢
      simp [List.filter_cons, hp, ih]
    | true =>
      by_cases hc : catWhere f.category oc = true
      · simp [List.filter_cons, hp, hc, List.replicate_succ] at ih ⊢
        exact ih
      · simp [List.filter_cons, hp, hc] at ih ⊢
        exact ih

/-- Helper: the ids of the filtered shared fragment are, post by post,
`kcount` copies of each post id. -/
theorem filteredIds_aux (db : PostListDB) (f : PostFilters) (l : List ListedPost) :
    (((l.flatMap (rowsFor db)).filter
        (fun r => postWhere f r.1 && catWhere f.category r.2)).map (fun r => r.1.id))
      = l.flatMap (fun p => List.replicate (kcount db f p) p.id) := by
  induction l with
  | nil => rfl
  | cons p l ih =>
    rw [List.flatMap_cons, List.filter_append, List.map_append, ih, List.flatMap_cons]
    congr 1
    unfold rowsFor kcount
    exact filter_map_pair_id f p (postJoinRows db p)

/-- Helper: dedup of a block of copies followed by a list not containing
the copied element. -/
theorem dedup_replicate_append {α : Type} [DecidableEq α] (a : α) (n : Nat)
    (rest : List α) (ha : a ∉ rest) :
    (List.replicate n a ++ rest).dedup = if n = 0 then rest.dedup else a :: rest.dedup := by
  induction n with
  | zero => simp
  | succ n ih =>
    rw [List.replicate_succ, List.cons_append, if_neg (Nat.succ_ne_zero n)]
    by_cases hn : n = 0
    · subst hn
      rw [List.replicate_zero, List.nil_append]
      exact List.dedup_cons_of_not_mem ha
    · have hmem : a ∈ List.replicate n a ++ rest :=
        List.mem_append_left rest (List.mem_replicate.mpr ⟨hn, rfl⟩)
      rw [List.dedup_cons_of_mem hmem, ih, if_neg hn]

/-- Helper: the number of distinct keys in a keyed block list equals the
number of posts with a nonempty block, when keys are distinct. -/
theorem dedup_length_flatMap_replicate {α β : Type} [DecidableEq α] [DecidableEq β]
    (g : α → Nat) (key : α → β) (l : List α) (hnd : (l.map key).Nodup) :
    (((l.flatMap (fun p => List.replicate (g p) (key p))).dedup).length)
      = (l.filter (fun p => !(g p == 0))).length := by
  induction l with
  | nil => rfl
  | cons p l ih =>
    rw [List.flatMap_cons]
    rw [List.map_cons] at hnd
    have hnd2 : (l.map key).Nodup := (List.nodup_cons.mp hnd).2
    have hkey : key p ∉ l.map key := (List.nodup_cons.mp hnd).1
    have hnotin : key p ∉ l.flatMap (fun q => List.replicate (g q) (key q)) := by
      intro hmem
      rcases List.mem_flatMap.mp hmem with ⟨q, hq, hq2⟩
      have heq : key p = key q := (List.mem_replicate.mp hq2).2
      exact hkey (heq ▸ List.mem_map_of_mem key hq)
    rw [dedup_replicate_append (key p) (g p) _ hnotin]
    by_cases hz : g p = 0
    · rw [if_pos hz, List.filter_cons]
      simp [hz, ih hnd2]
    · rw [if_neg hz, List.filter_cons]
      simp [hz, ih hnd2]

/-- Helper: the left join of a post never produces zero rows. -/
theorem postJoinRows_ne_nil (db : PostListDB) (p : ListedPost) :
    postJoinRows db p ≠ [] := by
  unfold postJoinRows
  by_cases hl : db.post_categories.filter (fun pc => pc.1 == p.id) = []
  · rw [if_pos hl]
    simp
  · rw [if_neg hl]
    simpa using hl

/-- Helper: the category predicate on a joined row as an `Option.any`. -/
theorem catWhere_some_eq_any (slug : String) (oc : Option CategoryRow) :
    catWhere (some slug) oc = oc.any (fun c => c.slug == slug) := by
  cases oc <;> rfl

/-- Helper: a post has a filtered join row with a matching category exactly
when some of its links joins to a category with the slug. -/
theorem postJoinRows_any_cat (db : PostListDB) (p : ListedPost) (slug : String) :
    (postJoinRows db p).any (fun oc => catWhere (some slug) oc)
      = db.post_categories.any (fun pc => pc.1 == p.id &&
          (db.categories.find? (fun c => c.id == pc.2)).any (fun c => c.slug == slug)) := by
  rw [← any_filter_and]
  unfold postJoinRows
  by_cases hl : db.post_categories.filter (fun pc => pc.1 == p.id) = []
  · rw [if_pos hl, hl]
    rfl
  · rw [if_neg hl, any_map_local]
    apply any_congr_local
    intro pc hpc
    exact catWhere_some_eq_any slug _

/-- Helper: one post contributes at least one filtered row exactly when it
satisfies the filters as read off the spec-side predicate. -/
theorem kcount_bne_eq_matches (db : PostListDB) (f : PostFilters) (p : ListedPost) :
    (!(kcount db f p == 0)) = postMatchesFilters db f p := by
  unfold kcount postMatchesFilters
  by_cases hp : postWhere f p = true
  · rw [if_pos hp, hp, Bool.true_and]
    cases hcat : f.category with
    | none =>
      rw [bne_filter_length_eq_any]
      have hne : postJoinRows db p ≠ [] := postJoinRows_ne_nil db p
      cases hrows : postJoinRows db p with
      | nil => exact absurd hrows hne
      | cons oc l => simp [catWhere]
    | some slug =>
      rw [bne_filter_length_eq_any]
      exact postJoinRows_any_cat db p slug
  · have hp2 : postWhere f p = false := eq_false_of_ne_true hp
    rw [if_neg hp, hp2, Bool.false_and]
    rfl

/-- Helper: `Math.ceil(total / limit)` equals `(total + limit - 1) / limit`
on naturals when the limit is positive. -/
theorem ceil_div_eq_pred_div (total limit : Nat) (hl : 0 < limit) :
    ⌈(total : ℚ) / (limit : ℚ)⌉₊ = (total + limit - 1) / limit := by
  have hlq : (0 : ℚ) < (limit : ℚ) := by exact_mod_cast hl
  apply le_antisymm
  · rw [Nat.ceil_le, div_le_iff₀ hlq]
    have h1 : total + limit - 1 < (total + limit - 1) / limit * limit + limit :=
      Nat.lt_div_mul_add hl
    have h2 : total ≤ (total + limit - 1) / limit * limit := by omega
    exact_mod_cast h2
  · rw [Nat.div_le_iff_le_mul_add_pred hl]
    have h2 : (total : ℚ) ≤ (⌈(total : ℚ) / (limit : ℚ)⌉₊ : ℚ) * limit := by
      rw [← div_le_iff₀ hlq]
      exact Nat.le_ceil _
    have h3 : total ≤ ⌈(total : ℚ) / (limit : ℚ)⌉₊ * limit := by exact_mod_cast h2
    have h4 : total ≤ limit * ⌈(total : ℚ) / (limit : ℚ)⌉₊ :=
      h3.trans (Nat.le_of_eq (Nat.mul_comm _ _))
    omega

/-! ### Theorem for claim C3 (pagination total consistency) -/

/-- C3: for every filter combination and every page/limit (limit positive,
post ids unique as the PRIMARY KEY guarantees), the `total` that
`Post.findAll` reports equals the number of distinct posts satisfying
exactly those filters — because the count query and the page query share
the one WHERE fragment; `totalPages` is the ceiling of `total / limit`; and
the returned page holds at most `limit` rows. -/
theorem C3_pagination_total_consistent (db : PostListDB) (f : PostFilters)
    (page limit : Nat) (hnd : (db.posts.map (fun p => p.id)).Nodup)
    (hlim : 0 < limit) :
    (Post_findAll db f page limit).total =
      (db.posts.filter (postMatchesFilters db f)).length ∧
    (Post_findAll db f page limit).totalPages =
      ⌈(((Post_findAll db f page limit).total : ℚ)) / ((limit : ℚ))⌉₊ ∧
    (Post_findAll db f page limit).data.length ≤ limit := by
  refine ⟨?_, ?_, ?_⟩
  · show countDistinctPosts db f = _
    unfold countDistinctPosts filteredRows joinRows
    rw [filteredIds_aux db f db.posts]
    rw [dedup_length_flatMap_replicate (kcount db f) (fun p => p.id) db.posts hnd]
    apply congrArg
    apply List.filter_congr
    intro p hp
    exact kcount_bne_eq_matches db f p
  · show (countDistinctPosts db f + limit - 1) / limit = _
    exact (ceil_div_eq_pred_div (countDistinctPosts db f) limit hlim).symm
  · show (((sortByPubDesc (groupedPosts db f)).drop ((page - 1) * limit)).take limit).length
        ≤ limit
    rw [List.length_take]
    exact Nat.min_le_left _ _

/-- Concrete listing filters: published posts in category "news". -/
def newsFilters : PostFilters :=
  { search := "", status := "published", category := some "news", featured := none }

/-- Concrete listing database: three posts, one category, two links. -/
def newsDB : PostListDB :=
  { posts :=
      [⟨1, "Outreach update", some "body one", none, true, false, some 5⟩,
       ⟨2, "Draft piece", some "body two", none, false, false, none⟩,
       ⟨3, "Gala night", none, some "short", true, true, some 9⟩],
    categories := [⟨10, "News", "news"⟩],
    post_categories := [(1, 10), (3, 10)] }

/-- C3 witness: on the concrete database the reported total equals the
number of matching posts (namely 2), totalPages is the ceiling, and the
page holds at most 10 rows. -/
theorem C3_pagination_total_consistent_witness :
    (Post_findAll newsDB newsFilters 1 10).total =
      (newsDB.posts.filter (postMatchesFilters newsDB newsFilters)).length ∧
    (Post_findAll newsDB newsFilters 1 10).total = 2 ∧
    (Post_findAll newsDB newsFilters 1 10).data.length ≤ 10 :=
  have h := C3_pagination_total_consistent newsDB newsFilters 1 10 (by decide) (by decide)
  ⟨h.1, h.1.trans (by decide), h.2.2⟩
